import Mathlib

/-!
Verification of the `openapi_lib_generator` task-graph construction and
scaffold-orchestration core, as a shallow embedding of
`src/generate/makefiles.rs`, `src/generate/crate_scaffolds.rs` and
`src/generate/yamls.rs`.

Conventions of the embedding:
* Pure Rust functions become Lean functions with the same names.
* Async side-effecting functions become functions over an explicit
  filesystem model `FS`, returning an effect trace, the new state and an
  `Except` result.  Primitive I/O (directory creation, file writes) is
  modelled as always succeeding; environmental I/O failures are outside
  the model.
* The `cli`, `generate::utils`, `generate::cargos` and `testing` modules
  of the repository are not part of the provided sources; the few values
  and helpers taken from them are modelled from the specification and
  marked as such in their doc comments.
* Literal braces and apostrophes inside string literals are written with
  `\x7b`, `\x7d` and `\x27` escapes; the denoted strings are identical to
  the Rust literals.
-/

/-- Modelled from the spec: parameter-resolution failures of the `cli`
module (not under `src/`): a required value could not be derived from CLI
input. -/
inductive ParameterError
  | specFileNameMissing
  | testingYAMLSpecPathMissing
deriving DecidableEq

/-- Modelled from the spec: the resolved CLI context (`crate::cli::InnerCli`,
not under `src/`).  Fields are exactly the ones the provided sources read:
the API name, API base URL, the optional default spec URL, the optional
local spec file path, and whether the invocation is the test-generation
subcommand (`SubCommands::TestGeneration`). -/
structure InnerCli where
  site_or_api_name : String
  api_url : String
  api_spec_url_opt : Option String
  local_api_spec_filepath_opt : Option String
  is_test_generation : Bool
deriving DecidableEq

/-- Modelled from the spec: `generate::cargos::CargoConfigurator` (not under
`src/`): the sub-configuration object embedded in the `generate-all` task
script, carrying this tool\x27s own package name and version. -/
structure CargoConfigurator where
  this_crate_name : String
  this_crate_ver : String
deriving DecidableEq

/-- Modelled from the spec: `serde_yaml::to_string` applied to a
`CargoConfigurator` (serializer external to the repository); the exact
rendering is irrelevant to every claim. -/
def CargoConfigurator.toYaml (c : CargoConfigurator) : String :=
  "this_crate_name: " ++ c.this_crate_name ++ "\nthis_crate_ver: " ++ c.this_crate_ver ++ "\n"

/-- Modelled from the spec: the resolved CLI context (`crate::cli::Cli`, not
under `src/`).  `outputProjectDir` is the result of
`get_output_project_dir`, `libName` of `get_lib_name`, `specFileNameOpt`
the fallible `try_get_spec_file_name` resolution, and
`cargoConfiguratorOpt` the fallible `CargoConfigurator::new` construction
(`none` also covers a `serde_yaml` serialization failure, the only other
failure source of the `generate-all` builder). -/
structure Cli where
  inner_cli : InnerCli
  outputProjectDir : String
  libName : String
  specFileNameOpt : Option String
  cargoConfiguratorOpt : Option CargoConfigurator
deriving DecidableEq

/-- Modelled from the spec: `cli::Paths::TempDir.get_str("path")`, the fixed
name of the internal working subdirectory (the `cli` module with the
`Paths` enum is not under `src/`; the claims do not depend on the literal
name, only on it being a fixed newline-free token). -/
def tempDirPathStr : String := "gen_temp"

/-- Modelled from the spec: the project ignore-file name used by
`cli::Paths::GitignoreFile`. -/
def gitignoreFileStr : String := ".gitignore"

/-- Modelled from the spec: `cli.get_output_project_dir()`. -/
def Cli.get_output_project_dir (cli : Cli) : String := cli.outputProjectDir

/-- Modelled from the spec: `cli.get_output_project_subpath(path)` joins the
output project directory with the given fixed subpath. -/
def Cli.get_output_project_subpath (cli : Cli) (sub : String) : String :=
  cli.outputProjectDir ++ "/" ++ sub

/-- Modelled from the spec: `cli.get_lib_name()`. -/
def Cli.get_lib_name (cli : Cli) : String := cli.libName

/-- Modelled from the spec: `cli.try_get_spec_file_name()`, failing with a
missing-parameter condition when no spec file name is resolvable. -/
def Cli.try_get_spec_file_name (cli : Cli) : Except ParameterError String :=
  match cli.specFileNameOpt with
  | some s => .ok s
  | none => .error .specFileNameMissing

/-- Modelled from the spec: `generate::utils::trim_lines` (not under
`src/`): trims whitespace from every line of the given text. -/
def trimLines (s : String) : String :=
  String.intercalate "\n" ((s.splitOn "\n").map String.trim)

/-- Modelled from the spec: `generate::utils::trim_lines_vec` (not under
`src/`): the per-line trimmed text as a list of lines. -/
def trimLinesVec (s : String) : List String :=
  (s.splitOn "\n").map String.trim

/-- Embeds `cargo_make::types::EnvValue`; only the `Value` variant is used
by the sources. -/
inductive EnvValue
  | value (s : String)
deriving DecidableEq

/-- Embeds the fields of `cargo_make::types::Task` that the sources set:
description, command, args, dependencies (all of them
`DependencyIdentifier::Name`, kept as plain names), condition script,
script runner and the (single-line) script body. -/
structure MakeTask where
  description : Option String := none
  command : Option String := none
  args : Option (List String) := none
  dependencies : Option (List String) := none
  condition_script : Option (List String) := none
  script_runner : Option String := none
  script : Option String := none
deriving DecidableEq

/-- Embeds `NamedTask` from `src/generate/makefiles.rs`. -/
structure NamedTask where
  name : String
  task : MakeTask
deriving DecidableEq

/-- Embeds `NamedTask::CODE_GENERATION_OPTS` (the lazily initialized fixed
option list; the laziness is irrelevant to the value). -/
def NamedTask.CODE_GENERATION_OPTS : List String :=
  ["generate",
   "--generator-name", "rust",
   "--output", "$\x7bOUTPUT_DIR\x7d",
   "--input-spec", "$\x7bSPEC_FILE_PATH\x7d",
   "--config", "$\x7bOPEN_API_GENERATOR_CONFIG_PATH\x7d"]

/-- Embeds `NamedTask::make_cargo_fix_task`. -/
def NamedTask.make_cargo_fix_task : NamedTask :=
  { name := "cargo-fix-generated",
    task := {
      description := some "Fix $\x7bLIB_NAME\x7d project generated code\x27.",
      command := some "cargo",
      args := some ["fix", "--broken-code", "--allow-dirty", "--all-targets",
                    "--all-features", "--verbose", "--verbose"] } }

/-- Embeds `NamedTask::make_crate_scaffold_task`. -/
def NamedTask.make_crate_scaffold_task : NamedTask :=
  { name := "crate-scaffold",
    task := {
      description := some "Setup $\x7bLIB_NAME\x7d project\x27.",
      dependencies := some ["output-dir-create", "output-dir-clean"] } }

/-- The embedded generated-program source text of the `generate-all` task,
as assembled by `NamedTask::make_generate_all_task` from the configurator
(format string from the source, then `trim_lines`). -/
def generateAllScript (c : CargoConfigurator) : String :=
  trimLines (String.intercalate "\n"
    ["",
     "      //! ```cargo",
     "      //! [dependencies]",
     "      //! " ++ c.this_crate_name ++ " = \x7b version = \"" ++ c.this_crate_ver ++ "\" \x7d",
     "      //! serde_yaml = \x7b version = \"0.9.19\" \x7d",
     "      //! tokio = \x7b version = \"1.26.0\", features = [\"full\"] \x7d",
     "      //! ```",
     "      use " ++ c.this_crate_name ++ "::generate\x7b cli::CLIError, cargos \x7d;",
     "      #[tokio::main]",
     "      fn main() -> Result<(), CLIError>  \x7b",
     "        let configurator_yaml: &\x27static str = \"" ++ c.toYaml ++ "\";",
     "        let cargo_configurator: cargos::CargoConfigurator = serde_yaml::from_str(configurator_yaml)?;",
     "        cargo_configurator.update_cargo_toml().await?;",
     "        Ok(())",
     "      \x7d",
     "    "])

/-- Makefile generation errors, embedding `MakefileGenerationError` (the
variants reachable in the model: a missing parameter via
`try_get_spec_file_name`, and a `CargoConfigurator`/serialization failure
in the `generate-all` builder; I/O and TOML errors attach to external
primitives modelled as succeeding). -/
inductive MakefileGenerationError
  | envMissingKey (k : String)
  | parameterError (e : ParameterError)
  | cargoConfigError
deriving DecidableEq

/-- Embeds `NamedTask::make_generate_all_task`: builds the configurator and
its YAML, then the task with its embedded script; fails exactly when the
configurator construction/serialization fails. -/
def NamedTask.make_generate_all_task (cli : Cli) :
    Except MakefileGenerationError NamedTask :=
  match cli.cargoConfiguratorOpt with
  | none => .error .cargoConfigError
  | some c =>
    .ok { name := "generate-all",
          task := {
            description := some "Generate $\x7bLIB_NAME\x7d code and try to get it up to par",
            dependencies := some ["lib-code-generate", "cargo-fix-generated"],
            script_runner := some "@rust",
            script := some (generateAllScript c) } }

/-- Embeds `NamedTask::make_lib_code_generator_task` (the generator task
and its dry-run variant). -/
def NamedTask.make_lib_code_generator_task (is_dry_run : Option Bool) : NamedTask :=
  let base := NamedTask.CODE_GENERATION_OPTS
  let args := if is_dry_run = some true then base ++ ["--dry-run"] else base
  let name := if is_dry_run = some true then "lib-code-generate-dry-run" else "lib-code-generate"
  { name,
    task := {
      description := some "Generate $\x7bLIB_NAME\x7d code",
      condition_script := some (trimLinesVec (String.intercalate "\n"
        ["",
         "          #!/bin/bash",
         "          # check if openapi cli command exists",
         "          if command -v $\x7bOPEN_API_GENERATOR_CLI_SCRIPT\x7d >& /dev/null ;  then",
         "            echo \"Found OpenAPI CLI command.\"",
         "            exit 0",
         "          else ",
         "            echo \"Missing OpenAPI CLI command. Try running `cargo make openapi-cli-bash-install`\"",
         "            exit 1",
         "          fi",
         "          "])),
      command := some "$\x7bOPEN_API_GENERATOR_CLI_SCRIPT\x7d",
      args := some args } }

/-- Embeds `NamedTask::make_openapi_cli_check_task`. -/
def NamedTask.make_openapi_cli_check_task : NamedTask :=
  { name := "openapi-cli-check",
    task := {
      description := some "Check that openapi cli generator tool is installed",
      command := some "command",
      args := some ["-v", "$\x7bOPEN_API_GENERATOR_CLI_SCRIPT\x7d"] } }

/-- Embeds `NamedTask::make_openapi_cli_install_task`; the interactive
install shell script is carried verbatim as the task body. -/
def NamedTask.make_openapi_cli_install_task : NamedTask :=
  { name := "openapi-cli-bash-install",
    task := {
      description := some "Install Open API generator CLI\x27.",
      script := some (String.intercalate "\n"
        ["#!/bin/bash",
         "          # enable the downloaded cli artifact file ",
         "          CLI_SUBDIR=$HOME/$\x7bOPEN_API_GENERATOR_CLI_SUBDIR\x7d",
         "          CLI_PATH=$HOME/$\x7bOPEN_API_GENERATOR_CLI_PATH\x7d",
         "          CLI_SCRIPT=$\x7bOPEN_API_GENERATOR_CLI_SCRIPT\x7d",
         "          if [[ ! -s \"$HOME/.bash_profile\" && -s \"$HOME/.profile\" ]] ; then",
         "              PROFILE_FILE=\"$HOME/.profile\"",
         "          else ",
         "              PROFILE_FILE=\"$HOME/.bash_profile\"",
         "          fi",
         "          # echo $CLI_SCRIPT",
         "          function check_cli",
         "          \x7b",
         "              source $PROFILE_FILE",
         "              if command -v $CLI_SCRIPT >& /dev/null",
         "              then ",
         "                  echo \"Install success. You can now run the \\\"$CLI_SCRIPT\\\" command\"",
         "                  echo \"After running \\\"source $PROFILE_FILE\\\"\"",
         "                  exit 0",
         "              else ",
         "                  echo \"Install failed.\"",
         "                  exit 0",
         "              fi",
         "          \x7d",
         "          function enable_cli",
         "          \x7b",
         "              chmod u+x $CLI_PATH",
         "              line_to_add=\"export PATH=\\$PATH:$CLI_SUBDIR/\"",
         "              if ! grep -q \"$line_to_add\" \"$\x7bPROFILE_FILE\x7d\" ; then ",
         "                  echo \"Adding \\\"$line_to_add\\\" to $\x7bPROFILE_FILE\x7d.\"",
         "                  echo \"\\# OpenAPI Generator CLI\" >> $PROFILE_FILE",
         "                  echo \"$line_to_add\" >> $PROFILE_FILE",
         "              else ",
         "                  echo \"Line already found in $PROFILE_FILE\"",
         "              fi",
         "              check_cli",
         "          \x7d ",
         "          # review the downloaded cli artifact file and optionally enable ",
         "          function deal_with_cli ",
         "          \x7b",
         "              echo Downloaded Open API Generator CLI script at $CLI_PATH",
         "              echo Do you want to enable, review the script or delete it?",
         "              select erd in \"Enable\" \"Review\" \"Delete\"; do",
         "                  case $erd in",
         "                      Enable) ",
         "                          enable_cli",
         "                          break",
         "                          ;;",
         "                      Review)",
         "                          less $CLI_PATH",
         "                          deal_with_cli",
         "                          break",
         "                          ;;",
         "                      Delete)",
         "                          rm $CLI_PATH",
         "                          rm -rf $CLI_SUBDIR",
         "                          exit 1",
         "                          ;;",
         "                  esac",
         "              done ",
         "          \x7d",
         "          # get the cli",
         "          function get_cli ",
         "          \x7b",
         "              mkdir -p $CLI_SUBDIR",
         "              wget -N $\x7bOPEN_API_GENERATOR_CLI_URL\x7d -O $CLI_PATH",
         "          \x7d",
         "  ",
         "          get_cli",
         "          deal_with_cli",
         "          "]) } }

/-- Embeds `NamedTask::make_output_dir_clean_task`. -/
def NamedTask.make_output_dir_clean_task : NamedTask :=
  { name := "output-dir-clean",
    task := {
      description := some "Setup $\x7bLIB_NAME\x7d output dir at $\x7bOUTPUT_DIR\x7d\x27.",
      command := some "rm",
      args := some ["-rf", "$\x7bOUTPUT_DIR\x7d/*"] } }

/-- Embeds `NamedTask::make_output_dir_create_task`.  Note: in the source
the `args` line (`"-p", "${OUTPUT_DIR}"`) is commented out, so the task
carries the bare `mkdir` command and no argument list. -/
def NamedTask.make_output_dir_create_task : NamedTask :=
  { name := "output-dir-create",
    task := {
      description := some "Create $\x7bLIB_NAME\x7d output dir at $\x7bOUTPUT_DIR\x7d\x27.",
      command := some "mkdir" } }

/-- Embeds `NamedTask::make_spec_download_default_task`. -/
def NamedTask.make_spec_download_default_task : NamedTask :=
  { name := "spec-download-default",
    task := {
      description := some "Downloads $\x7bAPI_NAME\x7d Open API specification from \x27$\x7bAPI_URL\x7d\x27.",
      command := some "wget",
      args := some ["$\x7bSPEC_FILE_URL\x7d", "-O", "$\x7bSPEC_FILE_PATH\x7d"] } }

/-- Embeds `NamedTask::make_spec_download_task`. -/
def NamedTask.make_spec_download_task : NamedTask :=
  { name := "spec-download",
    task := {
      description := some "Downloads $\x7bAPI_NAME\x7d Open API specification from specified vararg\x27.",
      command := some "wget",
      args := some ["$\x7b@\x7d", "-O", "$\x7bSPEC_FILE_PATH\x7d"] } }

example : NamedTask.make_output_dir_create_task.task.args = none := rfl

/-- Embeds `MakefileEnv` from `src/generate/makefiles.rs`: the flat mapping
of named configuration values (serialized under SCREAMING_SNAKE_CASE
keys). -/
structure MakefileEnv where
  api_url : EnvValue
  api_name : EnvValue
  lib_name : EnvValue
  output_dir : EnvValue
  output_temp_dir : EnvValue
  open_api_generator_cli_url : EnvValue
  open_api_generator_cli_subdir : EnvValue
  open_api_generator_cli_path : EnvValue
  open_api_generator_cli_script : EnvValue
  open_api_generator_config_file : EnvValue
  open_api_generator_config_path : EnvValue
  spec_file_download_dir : EnvValue
  spec_file_name : EnvValue
  spec_file_path : EnvValue
  spec_file_url : EnvValue
deriving DecidableEq

/-- Embeds `MakefileEnv::OPEN_API_GENERATOR_CONFIG_FILE`. -/
def MakefileEnv.OPEN_API_GENERATOR_CONFIG_FILE : String := "generator_config.yaml"

/-- Embeds `MakefileEnv::OPEN_API_GENERATOR_CLI_URL`. -/
def MakefileEnv.OPEN_API_GENERATOR_CLI_URL : String :=
  "https://raw.githubusercontent.com/OpenAPITools/openapi-generator/master/bin/utils/openapi-generator-cli.sh"

/-- Embeds `MakefileEnv::OPEN_API_GENERATOR_CLI_SUBDIR`. -/
def MakefileEnv.OPEN_API_GENERATOR_CLI_SUBDIR : String := "bin/openapitools"

/-- Embeds `MakefileEnv::OPEN_API_GENERATOR_CLI_SCRIPT`. -/
def MakefileEnv.OPEN_API_GENERATOR_CLI_SCRIPT : String := "openapi-generator-cli"

/-- Embeds `MakefileEnv::MAKEFILE_NAME`. -/
def MakefileEnv.MAKEFILE_NAME : String := "Makefile.toml"

/-- Embeds `impl TryFrom<&Cli> for MakefileEnv`: builds the environment from
the CLI context; the output-project-directory string is computed but not
used (`_output_project_dir_string` in the source); fails exactly when the
spec file name cannot be resolved. -/
def MakefileEnv.tryFrom (cli : Cli) : Except MakefileGenerationError MakefileEnv :=
  match cli.try_get_spec_file_name with
  | .error e => .error (.parameterError e)
  | .ok spec_file_name =>
    let api_spec_url_string :=
      (cli.inner_cli.api_spec_url_opt.map (fun u => u)).getD ""
    .ok {
      api_url := .value cli.inner_cli.api_url,
      api_name := .value cli.inner_cli.site_or_api_name,
      lib_name := .value cli.get_lib_name,
      output_dir := .value ".",
      output_temp_dir := .value ("./" ++ tempDirPathStr),
      open_api_generator_cli_subdir := .value MakefileEnv.OPEN_API_GENERATOR_CLI_SUBDIR,
      open_api_generator_cli_path :=
        .value "$\x7bOPEN_API_GENERATOR_CLI_SUBDIR\x7d/$\x7bOPEN_API_GENERATOR_CLI_SCRIPT\x7d",
      open_api_generator_cli_script := .value MakefileEnv.OPEN_API_GENERATOR_CLI_SCRIPT,
      open_api_generator_cli_url := .value MakefileEnv.OPEN_API_GENERATOR_CLI_URL,
      open_api_generator_config_file := .value MakefileEnv.OPEN_API_GENERATOR_CONFIG_FILE,
      open_api_generator_config_path := .value "$\x7bOPEN_API_GENERATOR_CONFIG_FILE\x7d",
      spec_file_download_dir := .value "$\x7bOUTPUT_TEMP_DIR\x7d/specdl",
      spec_file_name := .value spec_file_name,
      spec_file_path := .value "$\x7bSPEC_FILE_NAME\x7d",
      spec_file_url := .value api_spec_url_string }

/-- One insertion into the association-list model of
`HashMap<String, Task>`: a later entry with an existing key overwrites the
earlier one, a fresh key is appended. -/
def assocInsert : List (String × MakeTask) → String → MakeTask → List (String × MakeTask)
  | [], k, v => [(k, v)]
  | p :: t, k, v => if p.1 = k then (k, v) :: t else p :: assocInsert t k v

/-- The association-list model of `HashMap::from_iter` over named tasks:
entries inserted in iteration order, later duplicates overwriting. -/
def hashMapFromIter (l : List (String × MakeTask)) : List (String × MakeTask) :=
  l.foldl (fun m p => assocInsert m p.1 p.2) []

/-- Embeds `MakefileSpec`: the environment plus the task mapping (the
`HashMap` is modelled as a key-value association list). -/
structure MakefileSpec where
  env : MakefileEnv
  tasks : List (String × MakeTask)
deriving DecidableEq

/-- The list of named tasks built by `MakefileSpec::try_from` given the
already-built `generate-all` task: the ten fixed constructors in source
order, plus the default-spec download task pushed exactly when the CLI
context carries a default spec URL. -/
def makefileNamedTasks (cli : Cli) (genAll : NamedTask) : List NamedTask :=
  [NamedTask.make_cargo_fix_task,
   NamedTask.make_crate_scaffold_task,
   genAll,
   NamedTask.make_lib_code_generator_task none,
   NamedTask.make_lib_code_generator_task (some true),
   NamedTask.make_openapi_cli_check_task,
   NamedTask.make_openapi_cli_install_task,
   NamedTask.make_output_dir_clean_task,
   NamedTask.make_output_dir_create_task,
   NamedTask.make_spec_download_task] ++
  (if cli.inner_cli.api_spec_url_opt.isSome then
    [NamedTask.make_spec_download_default_task]
  else [])

/-- Embeds `impl TryFrom<&Cli> for MakefileSpec`: builds the environment,
then the task catalog, and collects the named tasks into the task
mapping. -/
def MakefileSpec.tryFrom (cli : Cli) : Except MakefileGenerationError MakefileSpec :=
  match MakefileEnv.tryFrom cli with
  | .error e => .error e
  | .ok env =>
    match NamedTask.make_generate_all_task cli with
    | .error e => .error e
    | .ok genAll =>
      .ok { env,
            tasks := hashMapFromIter
              ((makefileNamedTasks cli genAll).map (fun nt => (nt.name, nt.task))) }

/-- The filesystem model: the state of the target output directory
(existence and entry list) together with the contents of the individual
files this core writes (keyed by path).  Only facts the provided sources
read or the claims mention are tracked. -/
structure FS where
  outDirExists : Bool
  outDirEntries : List String
  files : List (String × String)
deriving DecidableEq

/-- Replace-or-append update of the file contents map: a write to an
existing path replaces its content (the `fs::write` truncating semantics),
a write to a fresh path adds it. -/
def setFileList : List (String × String) → String → String → List (String × String)
  | [], p, c => [(p, c)]
  | q :: t, p, c => if q.1 = p then (p, c) :: t else q :: setFileList t p c

/-- Write a file in the filesystem model, replacing any prior content. -/
def FS.setFile (fs : FS) (p c : String) : FS :=
  { fs with files := setFileList fs.files p c }

/-- Look up a file\x27s content in the filesystem model. -/
def FS.lookupFile (fs : FS) (p : String) : Option String :=
  fs.files.lookup p

/-- Recursive removal of the target directory in the filesystem model: the
directory is gone, and so is every tracked file under it. -/
def FS.removeDir (fs : FS) (dir : String) : FS :=
  { fs with
    outDirExists := false,
    outDirEntries := [],
    files := fs.files.filter (fun q => !((dir ++ "/").isPrefixOf q.1)) }

/-- The observable side effects of one scaffold invocation, in order. -/
inductive Effect
  | removeDirAll (path : String)
  | createDirAll (path : String)
  | cargoInit (path : String)
  | writeGitignore (path : String) (content : String)
  | writeTestSpec (path : String) (content : String)
  | writeMakefile (path : String) (content : String)
deriving DecidableEq

/-- Whether an effect is the pipeline-configuration (makefile) write. -/
def Effect.isMakefileWrite : Effect → Bool
  | .writeMakefile _ _ => true
  | _ => false

/-- The captured outcome of the external `cargo init` process: its exit
status, and the debug rendering of the full captured output
(`format!("\x7boutput:#?\x7d")`) used in the failure message. -/
structure CargoOutput where
  success : Bool
  debugDump : String
deriving DecidableEq

/-- Embeds `CrateScaffoldingError` (the variants reachable in the model;
I/O and process-spawn failures attach to primitives modelled as
succeeding). -/
inductive CrateScaffoldingError
  | nonEmptyTargetDir (p : String)
  | missingCrateDir (p : String)
  | cargoInitFailed (crate_dir : String) (error_string : String)
  | yamlGenerationError (e : ParameterError)
deriving DecidableEq

/-- The result of one orchestration step: the effect trace, the filesystem
state after it, and its outcome. -/
abbrev Step (α : Type) := List Effect × FS × Except CrateScaffoldingError α

/-- Sequencing of orchestration steps: a failing step short-circuits (the
`?` operator), a succeeding step passes the filesystem state on and the
traces concatenate. -/
def stepBind (s : Step Unit) (f : FS → Step Unit) : Step Unit :=
  match s with
  | (tr, fs, .error e) => (tr, fs, .error e)
  | (tr, fs, .ok ()) =>
    let (tr2, fs2, r) := f fs
    (tr ++ tr2, fs2, r)

/-- Embeds `create_testing_folder`: remove the target directory if it
exists, then (re)create it empty. -/
def create_testing_folder (cli : Cli) (fs : FS) : Step Unit :=
  let temp_dir_path := cli.get_output_project_dir
  let (tr1, fs1) :=
    if fs.outDirExists then
      ([Effect.removeDirAll temp_dir_path], fs.removeDir temp_dir_path)
    else ([], fs)
  (tr1 ++ [Effect.createDirAll temp_dir_path],
   { fs1 with outDirExists := true, outDirEntries := [] }, .ok ())

/-- Embeds `create_crate_folder_and_check_empty`: create the target
directory if absent, then fail if it holds any entry. -/
def create_crate_folder_and_check_empty (cli : Cli) (fs : FS) : Step Unit :=
  let dir_path := cli.get_output_project_dir
  let fs1 := if fs.outDirExists then fs
             else { fs with outDirExists := true, outDirEntries := [] }
  if fs1.outDirEntries.isEmpty then
    ([Effect.createDirAll dir_path], fs1, .ok ())
  else
    ([Effect.createDirAll dir_path], fs1, .error (.nonEmptyTargetDir dir_path))

/-- Embeds `init_crate`: fail with the missing-directory error (without
spawning the initializer) when the target directory is absent; otherwise
run `cargo init --lib` there, failing with the captured output when the
process exits non-zero. -/
def init_crate (cli : Cli) (fs : FS) (out : CargoOutput) : Step Unit :=
  let dir_path := cli.get_output_project_dir
  if !fs.outDirExists then
    ([], fs, .error (.missingCrateDir dir_path))
  else
    ([Effect.cargoInit dir_path], fs,
     if out.success then .ok ()
     else .error (.cargoInitFailed dir_path out.debugDump))

/-- Embeds `setup_tree_in_crate`: create the internal working subdirectory
inside the project directory. -/
def setup_tree_in_crate (cli : Cli) (fs : FS) : Step Unit :=
  ([Effect.createDirAll (cli.get_output_project_subpath tempDirPathStr)], fs, .ok ())

/-- The exact content `setup_git_in_crate` writes to the ignore file:
`format!("\n/\x7bcrate_temp_dir_str\x7d")`. -/
def gitignoreContent : String := "\n/" ++ tempDirPathStr

/-- Embeds `setup_git_in_crate`: write (replacing any prior content) the
ignore file with a newline followed by the slash-prefixed internal
subdirectory name. -/
def setup_git_in_crate (cli : Cli) (fs : FS) : Step Unit :=
  let gitignore_path := cli.get_output_project_subpath gitignoreFileStr
  ([Effect.writeGitignore gitignore_path gitignoreContent],
   fs.setFile gitignore_path gitignoreContent, .ok ())

/-- Modelled from the spec: `testing::PETSTORE_YAML` (the `testing` module
is not under `src/`), the fixed embedded sample specification blob written
verbatim in test mode; its literal text is irrelevant to every claim. -/
def PETSTORE_YAML : String := "openapi: \"3.0.0\"\ninfo:\n  title: Swagger Petstore\n"

/-- Embeds `yamls::create_testing_spec_file`: write the embedded sample
specification to the CLI-resolved local spec path, failing with the
missing-parameter condition when no such path was resolved. -/
def create_testing_spec_file (cli : Cli) (fs : FS) : Step Unit :=
  match cli.inner_cli.local_api_spec_filepath_opt with
  | none => ([], fs, .error (.yamlGenerationError .testingYAMLSpecPathMissing))
  | some p => ([Effect.writeTestSpec p PETSTORE_YAML], fs.setFile p PETSTORE_YAML, .ok ())

/-- The steps of `scaffold_crate` after the directory-preparation step:
initialize the crate, set up the internal tree, write the ignore file,
and, in test mode only, write the testing spec file. -/
def scaffoldAfterPrep (cli : Cli) (out : CargoOutput) (fs : FS) : Step Unit :=
  stepBind (init_crate cli fs out) (fun fs1 =>
  stepBind (setup_tree_in_crate cli fs1) (fun fs2 =>
  stepBind (setup_git_in_crate cli fs2) (fun fs3 =>
  if cli.inner_cli.is_test_generation then create_testing_spec_file cli fs3
  else ([], fs3, .ok ()))))

/-- Embeds `scaffold_crate`: the full scaffold orchestration — test-mode
destructive reset or create-and-verify-empty, then the remaining steps in
order, each running only if the previous one succeeded. -/
def scaffold_crate (cli : Cli) (fs : FS) (out : CargoOutput) : Step Unit :=
  stepBind
    (if cli.inner_cli.is_test_generation then create_testing_folder cli fs
     else create_crate_folder_and_check_empty cli fs)
    (scaffoldAfterPrep cli out)

/-- The underlying string of an environment value. -/
def EnvValue.str : EnvValue → String
  | .value s => s

/-- A value in the configuration document: a plain string or a string
list (the only value shapes this core serializes). -/
inductive TomlValue
  | str (s : String)
  | strList (l : List String)
deriving DecidableEq

/-- Modelled from the spec: the environment section of the serialized
pipeline-configuration document — the flat string mapping under
SCREAMING_SNAKE_CASE keys, in field declaration order (the serializer
itself, `toml::to_string_pretty` over the serde derives, is external to
the repository). -/
def serializeEnv (e : MakefileEnv) : List (String × String) :=
  [("API_URL", e.api_url.str),
   ("API_NAME", e.api_name.str),
   ("LIB_NAME", e.lib_name.str),
   ("OUTPUT_DIR", e.output_dir.str),
   ("OUTPUT_TEMP_DIR", e.output_temp_dir.str),
   ("OPEN_API_GENERATOR_CLI_URL", e.open_api_generator_cli_url.str),
   ("OPEN_API_GENERATOR_CLI_SUBDIR", e.open_api_generator_cli_subdir.str),
   ("OPEN_API_GENERATOR_CLI_PATH", e.open_api_generator_cli_path.str),
   ("OPEN_API_GENERATOR_CLI_SCRIPT", e.open_api_generator_cli_script.str),
   ("OPEN_API_GENERATOR_CONFIG_FILE", e.open_api_generator_config_file.str),
   ("OPEN_API_GENERATOR_CONFIG_PATH", e.open_api_generator_config_path.str),
   ("SPEC_FILE_DOWNLOAD_DIR", e.spec_file_download_dir.str),
   ("SPEC_FILE_NAME", e.spec_file_name.str),
   ("SPEC_FILE_PATH", e.spec_file_path.str),
   ("SPEC_FILE_URL", e.spec_file_url.str)]

/-- String lookup in a serialized section. -/
def getDocStr (l : List (String × String)) (k : String) : Option String :=
  l.lookup k


/-- Modelled from the spec: parsing the environment section back, requiring
every key of the environment model to be present. -/
def parseEnv (l : List (String × String)) : Option MakefileEnv :=
  match getDocStr l "API_URL", getDocStr l "API_NAME", getDocStr l "LIB_NAME",
        getDocStr l "OUTPUT_DIR", getDocStr l "OUTPUT_TEMP_DIR",
        getDocStr l "OPEN_API_GENERATOR_CLI_URL",
        getDocStr l "OPEN_API_GENERATOR_CLI_SUBDIR",
        getDocStr l "OPEN_API_GENERATOR_CLI_PATH",
        getDocStr l "OPEN_API_GENERATOR_CLI_SCRIPT",
        getDocStr l "OPEN_API_GENERATOR_CONFIG_FILE",
        getDocStr l "OPEN_API_GENERATOR_CONFIG_PATH",
        getDocStr l "SPEC_FILE_DOWNLOAD_DIR", getDocStr l "SPEC_FILE_NAME",
        getDocStr l "SPEC_FILE_PATH", getDocStr l "SPEC_FILE_URL" with
  | some api_url, some api_name, some lib_name, some output_dir,
    some output_temp_dir, some cli_url, some cli_subdir, some cli_path,
    some cli_script, some config_file, some config_path, some dl_dir,
    some file_name, some file_path, some file_url =>
    some {
      api_url := EnvValue.value api_url,
      api_name := EnvValue.value api_name,
      lib_name := EnvValue.value lib_name,
      output_dir := EnvValue.value output_dir,
      output_temp_dir := EnvValue.value output_temp_dir,
      open_api_generator_cli_url := EnvValue.value cli_url,
      open_api_generator_cli_subdir := EnvValue.value cli_subdir,
      open_api_generator_cli_path := EnvValue.value cli_path,
      open_api_generator_cli_script := EnvValue.value cli_script,
      open_api_generator_config_file := EnvValue.value config_file,
      open_api_generator_config_path := EnvValue.value config_path,
      spec_file_download_dir := EnvValue.value dl_dir,
      spec_file_name := EnvValue.value file_name,
      spec_file_path := EnvValue.value file_path,
      spec_file_url := EnvValue.value file_url }
  | _, _, _, _, _, _, _, _, _, _, _, _, _, _, _ => none
/-- Modelled from the spec: the serialized form of one task definition —
only the fields that are set are emitted (the serde skip-if-none
convention), under their document key names. -/
def serializeTask (t : MakeTask) : List (String × TomlValue) :=
  (t.description.map (fun s => ("description", TomlValue.str s))).toList ++
  (t.command.map (fun s => ("command", TomlValue.str s))).toList ++
  (t.args.map (fun l => ("args", TomlValue.strList l))).toList ++
  (t.dependencies.map (fun l => ("dependencies", TomlValue.strList l))).toList ++
  (t.condition_script.map (fun l => ("condition_script", TomlValue.strList l))).toList ++
  (t.script_runner.map (fun s => ("script_runner", TomlValue.str s))).toList ++
  (t.script.map (fun s => ("script", TomlValue.str s))).toList

/-- Plain-string field lookup in a serialized task. -/
def getTaskStr (l : List (String × TomlValue)) (k : String) : Option String :=
  match l.lookup k with
  | some (.str s) => some s
  | _ => none

/-- String-list field lookup in a serialized task. -/
def getTaskStrList (l : List (String × TomlValue)) (k : String) : Option (List String) :=
  match l.lookup k with
  | some (.strList s) => some s
  | _ => none

/-- Modelled from the spec: parsing one serialized task definition back
(every field optional). -/
def parseTaskDoc (l : List (String × TomlValue)) : MakeTask :=
  { description := getTaskStr l "description",
    command := getTaskStr l "command",
    args := getTaskStrList l "args",
    dependencies := getTaskStrList l "dependencies",
    condition_script := getTaskStrList l "condition_script",
    script_runner := getTaskStr l "script_runner",
    script := getTaskStr l "script" }

/-- Modelled from the spec: the pipeline-configuration document — a
top-level mapping with the environment section and the tasks section
(task name to serialized task definition). -/
structure SpecDoc where
  envSection : List (String × String)
  tasksSection : List (String × List (String × TomlValue))
deriving DecidableEq

/-- Modelled from the spec: serializing a `MakefileSpec` to the
configuration document. -/
def serializeSpecDoc (s : MakefileSpec) : SpecDoc :=
  { envSection := serializeEnv s.env,
    tasksSection := s.tasks.map (fun p => (p.1, serializeTask p.2)) }

/-- Modelled from the spec: parsing a configuration document back into a
`MakefileSpec`. -/
def parseSpecDoc (d : SpecDoc) : Option MakefileSpec :=
  (parseEnv d.envSection).map (fun env =>
    { env, tasks := d.tasksSection.map (fun p => (p.1, parseTaskDoc p.2)) })

/-- Modelled from the spec: the textual rendering of the configuration
document (stands in for `toml::to_string_pretty`, external to the
repository); only its existence matters to the claims. -/
def renderTomlValue : TomlValue → String
  | .str s => "\"" ++ s ++ "\""
  | .strList l => "[" ++ String.intercalate ", " (l.map (fun s => "\"" ++ s ++ "\"")) ++ "]"

/-- Modelled from the spec: textual rendering of the whole document. -/
def renderSpecDoc (d : SpecDoc) : String :=
  "[env]\n" ++
  String.intercalate "" (d.envSection.map (fun p => p.1 ++ " = \"" ++ p.2 ++ "\"\n")) ++
  String.intercalate "" (d.tasksSection.map (fun p =>
    "[tasks." ++ p.1 ++ "]\n" ++
    String.intercalate "" (p.2.map (fun q => q.1 ++ " = " ++ renderTomlValue q.2 ++ "\n"))))

/-- Embeds `MakefileSpec::write_to_makefile`: serialize the document and
write it to the fixed `Makefile.toml` name in the target project
directory, overwriting any prior file. -/
def MakefileSpec.write_to_makefile (spec : MakefileSpec) (cli : Cli) (fs : FS) :
    List Effect × FS × Except MakefileGenerationError Unit :=
  let output_file_path := cli.get_output_project_dir ++ "/" ++ MakefileEnv.MAKEFILE_NAME
  let toml_string := renderSpecDoc (serializeSpecDoc spec)
  ([Effect.writeMakefile output_file_path toml_string],
   fs.setFile output_file_path toml_string, .ok ())

instance : Inhabited EnvValue := ⟨.value ""⟩

instance : Inhabited MakefileEnv :=
  ⟨{ api_url := default, api_name := default, lib_name := default,
     output_dir := default, output_temp_dir := default,
     open_api_generator_cli_url := default,
     open_api_generator_cli_subdir := default,
     open_api_generator_cli_path := default,
     open_api_generator_cli_script := default,
     open_api_generator_config_file := default,
     open_api_generator_config_path := default,
     spec_file_download_dir := default, spec_file_name := default,
     spec_file_path := default, spec_file_url := default }⟩

instance : Inhabited MakefileSpec := ⟨{ env := default, tasks := [] }⟩

/-- Extract the success value of an `Except`, defaulting on error (used
only to name concrete successful results in witnesses). -/
def exceptOk {ε α : Type} [Inhabited α] : Except ε α → α
  | .ok a => a
  | .error _ => default

/-- A concrete non-test CLI context with a default spec URL, a resolved
spec file name and a successfully built configurator. -/
def cliDefault : Cli :=
  { inner_cli := {
      site_or_api_name := "petstore",
      api_url := "https://petstore.example.com",
      api_spec_url_opt := some "https://example.com/spec.json",
      local_api_spec_filepath_opt := some "petstore.yaml",
      is_test_generation := false },
    outputProjectDir := "out",
    libName := "petstore_lib",
    specFileNameOpt := some "petstore.yaml",
    cargoConfiguratorOpt := some { this_crate_name := "openapi_lib_generator",
                                   this_crate_ver := "0.1.0" } }

/-- The concrete context `cliDefault` switched to the test-generation
subcommand. -/
def cliTest : Cli :=
  { cliDefault with inner_cli := { cliDefault.inner_cli with is_test_generation := true } }

/-- The concrete context `cliDefault` without a default spec URL. -/
def cliNoUrl : Cli :=
  { cliDefault with inner_cli := { cliDefault.inner_cli with api_spec_url_opt := none } }

/-- A filesystem in which the target output directory does not exist. -/
def fsAbsent : FS := { outDirExists := false, outDirEntries := [], files := [] }

/-- A filesystem in which the target output directory exists and is
empty. -/
def fsReady : FS := { outDirExists := true, outDirEntries := [], files := [] }

/-- A filesystem in which the target output directory exists and holds an
entry, including a pre-existing ignore file. -/
def fsNonEmpty : FS :=
  { outDirExists := true, outDirEntries := ["stale.txt"],
    files := [("out/.gitignore", "old-ignore-content")] }

/-- A successful captured `cargo init` outcome. -/
def outOk : CargoOutput := { success := true, debugDump := "Output with status 0" }

/-- A failing captured `cargo init` outcome. -/
def outFail : CargoOutput := { success := false, debugDump := "Output with status 101" }

/-- The makefile specification built from `cliDefault` (its construction
succeeds). -/
def specDefault : MakefileSpec := exceptOk (MakefileSpec.tryFrom cliDefault)

/-- The makefile specification built from `cliNoUrl`. -/
def specNoUrl : MakefileSpec := exceptOk (MakefileSpec.tryFrom cliNoUrl)

/-- The environment built from `cliDefault`. -/
def envDefault : MakefileEnv := exceptOk (MakefileEnv.tryFrom cliDefault)

/-- Split a character list at newline characters. -/
def splitCharsAtNewline : List Char → List (List Char)
  | [] => [[]]
  | c :: cs =>
    let r := splitCharsAtNewline cs
    if c = '\n' then [] :: r else (c :: r.headI) :: r.tail

/-- The list of lines of a string (split at newline characters); used to
state what "exactly one line" means for written file contents. -/
def splitLines (s : String) : List String :=
  (splitCharsAtNewline s.toList).map List.asString

/-- The ten task names always present in the catalog, in construction
order. -/
def fixedTaskNames : List String :=
  ["cargo-fix-generated", "crate-scaffold", "generate-all",
   "lib-code-generate", "lib-code-generate-dry-run", "openapi-cli-check",
   "openapi-cli-bash-install", "output-dir-clean", "output-dir-create",
   "spec-download"]

/-- Writes in the filesystem model land at the written path: looking the
path up after `setFileList` returns the new content, whatever was there
before. -/
theorem lookup_setFileList (p c : String) :
    ∀ files : List (String × String), (setFileList files p c).lookup p = some c := by
  intro files
  induction files with
  | nil => simp [setFileList, List.lookup]
  | cons q t ih =>
    by_cases hq : q.1 = p
    · simp [setFileList, hq, List.lookup]
    · have hb : (p == q.1) = false := beq_eq_false_iff_ne.mpr (fun h => hq h.symm)
      simp [setFileList, hq, List.lookup, hb, ih]

/-- Round trip of the environment section: parsing the serialized
environment recovers every entry. -/
theorem parseEnv_serializeEnv (e : MakefileEnv) : parseEnv (serializeEnv e) = some e := by
  obtain ⟨⟨a⟩, ⟨b⟩, ⟨c⟩, ⟨d⟩, ⟨e1⟩, ⟨f⟩, ⟨g⟩, ⟨h⟩, ⟨i⟩, ⟨j⟩, ⟨k⟩, ⟨l⟩, ⟨m⟩, ⟨n⟩, ⟨o⟩⟩ := e
  rfl

set_option maxHeartbeats 2000000 in
/-- Round trip of one task definition: parsing the serialized task
recovers every field. -/
theorem parseTaskDoc_serializeTask (t : MakeTask) : parseTaskDoc (serializeTask t) = t := by
  obtain ⟨d, c, a, dep, cs, sr, sc⟩ := t
  cases d <;> cases c <;> cases a <;> cases dep <;> cases cs <;> cases sr <;> cases sc <;> rfl

/-- Round trip of the tasks section, entry by entry. -/
theorem tasks_round_trip (l : List (String × MakeTask)) :
    List.map (fun p => (p.1, parseTaskDoc p.2))
      (List.map (fun p : String × MakeTask => (p.1, serializeTask p.2)) l) = l := by
  induction l with
  | nil => rfl
  | cons p t ih => simp [parseTaskDoc_serializeTask, ih]

/-- C9: serializing a Graph Spec to the configuration document and parsing
it back yields the same environment mapping and the same task mapping (no
entry or task lost, every field preserved); serialization introduces no
duplicate environment key and maps task keys one-to-one. -/
theorem spec_doc_round_trip (spec : MakefileSpec) :
    parseSpecDoc (serializeSpecDoc spec) = some spec ∧
    ((serializeSpecDoc spec).envSection.map Prod.fst).Nodup ∧
    (serializeSpecDoc spec).tasksSection.map Prod.fst = spec.tasks.map Prod.fst := by
  obtain ⟨env, tasks⟩ := spec
  refine ⟨?_, ?_, ?_⟩
  · unfold parseSpecDoc serializeSpecDoc
    rw [parseEnv_serializeEnv, Option.map_some', tasks_round_trip]
  · simp only [serializeSpecDoc, serializeEnv, List.map]
    decide
  · simp [serializeSpecDoc, List.map_map]

/-- C3: whenever graph-spec construction succeeds, the task mapping holds
exactly the ten fixed catalog tasks, plus `spec-download-default` exactly
when the CLI context carries a default spec URL. -/
theorem makefile_task_catalog (cli : Cli) (spec : MakefileSpec)
    (h : MakefileSpec.tryFrom cli = .ok spec) :
    spec.tasks.map Prod.fst =
      fixedTaskNames ++
      (if cli.inner_cli.api_spec_url_opt.isSome then ["spec-download-default"]
       else []) := by
  unfold MakefileSpec.tryFrom at h
  cases hsE : MakefileEnv.tryFrom cli with
  | error e => rw [hsE] at h; cases h
  | ok env =>
    rw [hsE] at h
    unfold NamedTask.make_generate_all_task at h
    cases hc : cli.cargoConfiguratorOpt with
    | none => rw [hc] at h; cases h
    | some c =>
      rw [hc] at h
      simp only [] at h
      cases h
      cases hu : cli.inner_cli.api_spec_url_opt with
      | none => simp only [makefileNamedTasks, hu]; rfl
      | some u => simp only [makefileNamedTasks, hu]; rfl

/-- C5: whenever graph-spec construction succeeds, every dependency name
listed inside any task of the graph is a key of the same task mapping. -/
theorem makefile_deps_closed (cli : Cli) (spec : MakefileSpec)
    (h : MakefileSpec.tryFrom cli = .ok spec) :
    (spec.tasks.all (fun p =>
      (p.2.dependencies.getD []).all (fun d =>
        (spec.tasks.map Prod.fst).contains d))) = true := by
  unfold MakefileSpec.tryFrom at h
  cases hsE : MakefileEnv.tryFrom cli with
  | error e => rw [hsE] at h; cases h
  | ok env =>
    rw [hsE] at h
    unfold NamedTask.make_generate_all_task at h
    cases hc : cli.cargoConfiguratorOpt with
    | none => rw [hc] at h; cases h
    | some c =>
      rw [hc] at h
      simp only [] at h
      cases h
      cases hu : cli.inner_cli.api_spec_url_opt with
      | none => simp only [makefileNamedTasks, hu]; rfl
      | some u => simp only [makefileNamedTasks, hu]; rfl

/-- C10: whenever environment construction succeeds, the `output_dir`
entry is the literal `"."` and the `output_temp_dir` entry is `"./"`
followed by the fixed internal temp-directory name; the values are the
same for every CLI context, so neither depends on the CLI-resolved output
project directory. -/
theorem env_output_dirs_fixed (cli : Cli) (env : MakefileEnv)
    (h : MakefileEnv.tryFrom cli = .ok env) :
    env.output_dir = .value "." ∧
    env.output_temp_dir = .value ("./" ++ tempDirPathStr) ∧
    (∀ cli' env', MakefileEnv.tryFrom cli' = .ok env' →
      env'.output_dir = env.output_dir ∧
      env'.output_temp_dir = env.output_temp_dir) := by
  have key : ∀ (c : Cli) (e : MakefileEnv), MakefileEnv.tryFrom c = .ok e →
      e.output_dir = .value "." ∧
      e.output_temp_dir = .value ("./" ++ tempDirPathStr) := by
    intro c e hce
    unfold MakefileEnv.tryFrom Cli.try_get_spec_file_name at hce
    cases hs : c.specFileNameOpt with
    | none => rw [hs] at hce; cases hce
    | some s =>
      rw [hs] at hce
      simp only [] at hce
      cases hce
      exact ⟨rfl, rfl⟩
  obtain ⟨h1, h2⟩ := key cli env h
  refine ⟨h1, h2, fun cli' env' h' => ?_⟩
  obtain ⟨h1', h2'⟩ := key cli' env' h'
  rw [h1', h2', h1, h2]
  exact ⟨rfl, rfl⟩

/-- C1: a non-test scaffold invocation on an existing, non-empty target
directory fails with the non-empty-directory error; the only effect is the
directory-creation call of the pre-check itself, so no project
initialization, subdirectory creation, ignore-file write or graph emission
happens, and the filesystem state (in particular every file content) is
unchanged. -/
theorem scaffold_nonempty_dir_fails (cli : Cli) (fs : FS) (out : CargoOutput)
    (hmode : cli.inner_cli.is_test_generation = false)
    (hex : fs.outDirExists = true) (hne : fs.outDirEntries ≠ []) :
    scaffold_crate cli fs out =
      ([Effect.createDirAll cli.outputProjectDir], fs,
       .error (.nonEmptyTargetDir cli.outputProjectDir)) := by
  have hempty : fs.outDirEntries.isEmpty = false := by
    cases hE : fs.outDirEntries with
    | nil => exact absurd hE hne
    | cons a t => rfl
  unfold scaffold_crate create_crate_folder_and_check_empty
  rw [hmode]
  simp [hex, hempty, stepBind, Cli.get_output_project_dir]

/-- C2: in test mode the directory-preparation step always succeeds
(never failing for non-emptiness), leaves the target directory existing
and empty — a pre-existing directory is removed in full (its tracked
files dropped) and recreated — and the scaffold runs it strictly before
the initialization-and-later steps. -/
theorem scaffold_test_mode_resets_dir (cli : Cli) (fs : FS) (out : CargoOutput)
    (hmode : cli.inner_cli.is_test_generation = true) :
    (create_testing_folder cli fs).2.2 = .ok () ∧
    (create_testing_folder cli fs).2.1.outDirExists = true ∧
    (create_testing_folder cli fs).2.1.outDirEntries = [] ∧
    (fs.outDirExists = true →
      (create_testing_folder cli fs).1 =
        [Effect.removeDirAll cli.outputProjectDir,
         Effect.createDirAll cli.outputProjectDir] ∧
      (create_testing_folder cli fs).2.1.files =
        fs.files.filter (fun q => !((cli.outputProjectDir ++ "/").isPrefixOf q.1))) ∧
    scaffold_crate cli fs out =
      stepBind (create_testing_folder cli fs) (scaffoldAfterPrep cli out) := by
  refine ⟨?_, ?_, ?_, ?_, ?_⟩
  · unfold create_testing_folder
    cases hE : fs.outDirExists <;> simp [hE]
  · unfold create_testing_folder
    cases hE : fs.outDirExists <;> simp [hE]
  · unfold create_testing_folder
    cases hE : fs.outDirExists <;> simp [hE]
  · intro hE
    unfold create_testing_folder
    simp [hE, FS.removeDir, Cli.get_output_project_dir]
  · unfold scaffold_crate
    rw [hmode]
    simp

/-- C8: the initialization step fails with the missing-directory error,
without invoking the external initializer, when the target directory is
absent; it fails with the initialization-failed error carrying the
captured output when the initializer exits non-zero; and (given the
directory exists) it succeeds exactly when the initializer exits
successfully. -/
theorem init_crate_behaviour (cli : Cli) (fs : FS) (out : CargoOutput) :
    (fs.outDirExists = false →
      init_crate cli fs out =
        ([], fs, .error (.missingCrateDir cli.outputProjectDir))) ∧
    (fs.outDirExists = true → out.success = false →
      init_crate cli fs out =
        ([Effect.cargoInit cli.outputProjectDir], fs,
         .error (.cargoInitFailed cli.outputProjectDir out.debugDump))) ∧
    (fs.outDirExists = true →
      ((init_crate cli fs out).2.2 = .ok () ↔ out.success = true)) := by
  unfold init_crate
  refine ⟨fun h => by simp [h, Cli.get_output_project_dir],
          fun h1 h2 => by simp [h1, h2, Cli.get_output_project_dir],
          fun h1 => ?_⟩
  simp only [h1]
  cases hs : out.success <;> simp [hs]

/-- Sequencing preserves makefile-write-freeness of the effect trace. -/
theorem stepBind_no_makefile (s : Step Unit) (f : FS → Step Unit)
    (h1 : (s.1.all fun e => !e.isMakefileWrite) = true)
    (h2 : ∀ fs1, ((f fs1).1.all fun e => !e.isMakefileWrite) = true) :
    ((stepBind s f).1.all fun e => !e.isMakefileWrite) = true := by
  obtain ⟨tr, fs, r⟩ := s
  cases r with
  | error e => simpa [stepBind] using h1
  | ok u =>
    cases u
    rcases hf : f fs with ⟨tr2, fs2, r2⟩
    have h2' := h2 fs
    rw [hf] at h2'
    simp only [stepBind, hf, List.all_append]
    simp only at h1 h2'
    simp [h1, h2']

/-- The test-mode directory preparation emits no makefile write. -/
theorem create_testing_folder_no_makefile (cli : Cli) (fs : FS) :
    ((create_testing_folder cli fs).1.all fun e => !e.isMakefileWrite) = true := by
  unfold create_testing_folder
  cases hE : fs.outDirExists <;> simp [hE, Effect.isMakefileWrite]

/-- The non-test directory preparation emits no makefile write. -/
theorem create_crate_folder_no_makefile (cli : Cli) (fs : FS) :
    ((create_crate_folder_and_check_empty cli fs).1.all fun e => !e.isMakefileWrite) = true := by
  unfold create_crate_folder_and_check_empty
  dsimp only
  split <;> split <;> simp [Effect.isMakefileWrite]

/-- The initialization step emits no makefile write. -/
theorem init_crate_no_makefile (cli : Cli) (fs : FS) (out : CargoOutput) :
    ((init_crate cli fs out).1.all fun e => !e.isMakefileWrite) = true := by
  unfold init_crate
  split <;> simp [Effect.isMakefileWrite]

/-- The remaining scaffold steps emit no makefile write. -/
theorem scaffoldAfterPrep_no_makefile (cli : Cli) (out : CargoOutput) (fs : FS) :
    ((scaffoldAfterPrep cli out fs).1.all fun e => !e.isMakefileWrite) = true := by
  unfold scaffoldAfterPrep
  apply stepBind_no_makefile _ _ (init_crate_no_makefile cli fs out)
  intro fs1
  apply stepBind_no_makefile
  · simp [setup_tree_in_crate, Effect.isMakefileWrite]
  intro fs2
  apply stepBind_no_makefile
  · simp [setup_git_in_crate, Effect.isMakefileWrite]
  intro fs3
  cases ht : cli.inner_cli.is_test_generation with
  | false => simp [ht]
  | true =>
    simp only [ht, if_true]
    cases hl : cli.inner_cli.local_api_spec_filepath_opt <;>
      simp [create_testing_spec_file, hl, Effect.isMakefileWrite]

/-- C4 (amended): `scaffold_crate` performs the directory preparation,
project initialization, subdirectory creation, ignore-file write and (in
test mode) the test-spec write, but never itself emits the
pipeline-configuration write — its effect trace contains no makefile
write for any input — while the makefile write is the separate operation
`MakefileSpec::write_to_makefile`, which emits exactly the configuration
file write into the target project directory and succeeds. -/
theorem scaffold_emits_no_makefile_write (cli : Cli) (fs : FS) (out : CargoOutput)
    (spec : MakefileSpec) :
    ((scaffold_crate cli fs out).1.all fun e => !e.isMakefileWrite) = true ∧
    (spec.write_to_makefile cli fs).1 =
      [Effect.writeMakefile
        (cli.get_output_project_dir ++ "/" ++ MakefileEnv.MAKEFILE_NAME)
        (renderSpecDoc (serializeSpecDoc spec))] ∧
    (spec.write_to_makefile cli fs).2.2 = .ok () := by
  refine ⟨?_, rfl, rfl⟩
  unfold scaffold_crate
  apply stepBind_no_makefile
  · cases ht : cli.inner_cli.is_test_generation <;>
      simp [create_crate_folder_no_makefile, create_testing_folder_no_makefile]
  · exact scaffoldAfterPrep_no_makefile cli out

/-- C4 counterexample: a concrete successful non-test scaffold invocation
whose complete effect trace is directory creation, `cargo init`, internal
subdirectory creation and the ignore-file write — it succeeds without any
makefile (graph-emission) write. -/
theorem scaffold_no_graph_emission_cex :
    (scaffold_crate cliDefault fsAbsent outOk).2.2 = .ok () ∧
    (scaffold_crate cliDefault fsAbsent outOk).1 =
      [Effect.createDirAll "out", Effect.cargoInit "out",
       Effect.createDirAll "out/gen_temp",
       Effect.writeGitignore "out/.gitignore" "\n/gen_temp"] ∧
    ((scaffold_crate cliDefault fsAbsent outOk).1.all fun e => !e.isMakefileWrite) = true :=
  ⟨rfl, rfl, rfl⟩

/-- C6: the create-output task the builder constructs carries the bare
`mkdir` command and no argument list at all (the source comments the
argument list out), so its command and argument list designate no
directory — despite the task\x27s own description promising to create the
output directory. -/
theorem output_dir_create_task_no_args :
    NamedTask.make_output_dir_create_task.name = "output-dir-create" ∧
    NamedTask.make_output_dir_create_task.task.command = some "mkdir" ∧
    NamedTask.make_output_dir_create_task.task.args = none ∧
    NamedTask.make_output_dir_create_task.task.description =
      some "Create $\x7bLIB_NAME\x7d output dir at $\x7bOUTPUT_DIR\x7d\x27." :=
  ⟨rfl, rfl, rfl, rfl⟩

/-- C7 counterexample: on a concrete run, the ignore-file content written
by `setup_git_in_crate` splits into two lines — an empty first line and
the subdirectory line — so the resulting content is not exactly one
line. -/
theorem gitignore_two_lines_cex :
    (setup_git_in_crate cliDefault fsNonEmpty).2.1.lookupFile "out/.gitignore" =
      some gitignoreContent ∧
    splitLines gitignoreContent = ["", "/" ++ tempDirPathStr] ∧
    (splitLines gitignoreContent).length ≠ 1 :=
  ⟨rfl, by decide, by decide⟩

/-- C7 (amended): the ignore file is written replacing any prior content
(after the step, the file content is the written string whatever was
there before), and that content is a leading newline followed by exactly
one non-empty line naming the internal working subdirectory. -/
theorem gitignore_overwrite_single_entry (cli : Cli) (fs : FS) :
    setup_git_in_crate cli fs =
      ([Effect.writeGitignore (cli.get_output_project_subpath gitignoreFileStr)
          gitignoreContent],
       fs.setFile (cli.get_output_project_subpath gitignoreFileStr) gitignoreContent,
       .ok ()) ∧
    (setup_git_in_crate cli fs).2.1.lookupFile
        (cli.get_output_project_subpath gitignoreFileStr) = some gitignoreContent ∧
    gitignoreContent = "\n" ++ "/" ++ tempDirPathStr ∧
    (splitLines gitignoreContent).filter (fun l => !l.isEmpty) =
      ["/" ++ tempDirPathStr] := by
  refine ⟨rfl, ?_, rfl, by decide⟩
  exact lookup_setFileList _ _ fs.files

/-- Witness for C1: the non-empty-directory failure observed at a concrete
non-test invocation. -/
theorem scaffold_nonempty_dir_fails_witness :
    scaffold_crate cliDefault fsNonEmpty outOk =
      ([Effect.createDirAll "out"], fsNonEmpty,
       .error (.nonEmptyTargetDir "out")) :=
  scaffold_nonempty_dir_fails cliDefault fsNonEmpty outOk rfl rfl (by decide)

/-- Witness for C2: the destructive reset observed at a concrete test-mode
invocation on a populated directory. -/
theorem scaffold_test_mode_resets_dir_witness :
    (create_testing_folder cliTest fsNonEmpty).2.2 = .ok () ∧
    (create_testing_folder cliTest fsNonEmpty).2.1.outDirExists = true ∧
    (create_testing_folder cliTest fsNonEmpty).2.1.outDirEntries = [] ∧
    (create_testing_folder cliTest fsNonEmpty).1 =
      [Effect.removeDirAll "out", Effect.createDirAll "out"] := by
  obtain ⟨h1, h2, h3, h4, _⟩ := scaffold_test_mode_resets_dir cliTest fsNonEmpty outOk rfl
  exact ⟨h1, h2, h3, (h4 rfl).1⟩

/-- Witness for C3: the concrete catalogs with and without a default spec
URL. -/
theorem makefile_task_catalog_witness :
    specDefault.tasks.map Prod.fst = fixedTaskNames ++ ["spec-download-default"] ∧
    specNoUrl.tasks.map Prod.fst = fixedTaskNames := by
  constructor
  · exact makefile_task_catalog cliDefault specDefault rfl
  · exact makefile_task_catalog cliNoUrl specNoUrl rfl

/-- Witness for C5: dependency closure of the concrete catalog. -/
theorem makefile_deps_closed_witness :
    (specDefault.tasks.all (fun p =>
      (p.2.dependencies.getD []).all (fun d =>
        (specDefault.tasks.map Prod.fst).contains d))) = true :=
  makefile_deps_closed cliDefault specDefault rfl

/-- Witness for C8: the three initialization outcomes at concrete
inputs. -/
theorem init_crate_behaviour_witness :
    init_crate cliDefault fsAbsent outOk =
      ([], fsAbsent, .error (.missingCrateDir "out")) ∧
    init_crate cliDefault fsReady outFail =
      ([Effect.cargoInit "out"], fsReady,
       .error (.cargoInitFailed "out" "Output with status 101")) ∧
    (init_crate cliDefault fsReady outOk).2.2 = .ok () :=
  ⟨(init_crate_behaviour cliDefault fsAbsent outOk).1 rfl,
   (init_crate_behaviour cliDefault fsReady outFail).2.1 rfl rfl,
   ((init_crate_behaviour cliDefault fsReady outOk).2.2 rfl).mpr rfl⟩

/-- Witness for C10: the fixed output-directory environment entries at a
concrete context. -/
theorem env_output_dirs_fixed_witness :
    envDefault.output_dir = .value "." ∧
    envDefault.output_temp_dir = .value "./gen_temp" :=
  ⟨(env_output_dirs_fixed cliDefault envDefault rfl).1,
   (env_output_dirs_fixed cliDefault envDefault rfl).2.1⟩
